import Mathlib

/-!
Shallow embedding of the `shopify_orders` order-management backend.

The primary revision (Mongo-backed, the one carrying the full pipeline)
defines: an HMAC-signature verification middleware, a webhook handler that
transforms a Shopify order payload (batched product enrichment, shipping
method inference, item-count aggregation) and upserts it by `shopifyId`,
partial-update endpoints for measurements and pickup points, and a listing
endpoint sorted by `created_at` descending limited to 50 records.

A second revision keeps orders in an in-memory array, prepending each new
transformed order and truncating with `slice(0, 49)`.

JavaScript values that may be `undefined` are modelled with `Option`;
a thrown exception inside the handler's `try` block is modelled by the
handler returning the 500 outcome with the store unchanged; timestamps
are modelled as natural-number ticks.
-/

namespace ShopifyOrders

/-- HTTP outcomes produced by the handlers we model. -/
inductive HttpStatus where
  | ok200
  | unauthorized401
  | notFound404
  | internalError500
  deriving DecidableEq, Repr

/-- The two values of the `shipping_method` enum in the Mongoose schema. -/
inductive ShippingMethod where
  | service_point
  | home_delivery
  deriving DecidableEq, Repr

/-- A line item of the incoming Shopify webhook payload
(fields read by the handler: `title`, `product_id`, `variant_id`,
`requires_shipping`, `current_quantity`). -/
structure WebhookLineItem where
  title : Option String
  product_id : Nat
  variant_id : Option Nat
  requires_shipping : Bool
  current_quantity : Nat
  deriving DecidableEq, Repr

/-- A shipping line of the incoming payload (`title`, `code`). -/
structure WebhookShippingLine where
  title : Option String
  code : Option String
  deriving DecidableEq, Repr

/-- The shipping address of the incoming payload; every field the code
reads is guarded by `?.`, so each is optional. -/
structure WebhookAddress where
  name : Option String
  address1 : Option String
  address2 : Option String
  city : Option String
  zip : Option String
  country_code : Option String
  phone : Option String
  deriving DecidableEq, Repr

/-- The incoming webhook payload. `shipping_address` and `shipping_lines`
are `Option` because the handler accesses `shipping_address` only through
`?.` while `shipping_lines` is indexed and mapped directly (so its absence
makes the handler throw). -/
structure WebhookOrder where
  id : Nat
  order_number : Option String
  line_items : List WebhookLineItem
  shipping_address : Option WebhookAddress
  shipping_lines : Option (List WebhookShippingLine)
  deriving DecidableEq, Repr

/-- A product node of the GraphQL enrichment response (we keep the `id`
used for the lookup and the `title` as representative payload). -/
structure ProductNode where
  id : String
  title : Option String
  deriving DecidableEq, Repr

/-- `gid://shopify/Product/${item.product_id}`. -/
def gidOf (pid : Nat) : String :=
  "gid://shopify/Product/" ++ toString pid

/-- The `productsById` lookup dictionary built from `productData.data?.nodes`:
`null` entries are skipped (`if (product)`), later entries overwrite earlier
ones (JS object assignment), hence the `reverse` before `find?`. -/
def buildProductsById (nodes : List (Option ProductNode)) (pid : String) :
    Option ProductNode :=
  ((nodes.filterMap (fun x => x)).reverse).find? (fun p => p.id == pid)

/-- A transformed line item as written by the webhook handler. -/
structure TransformedLineItem where
  title : Option String
  product_id : String
  variant_id : Option Nat
  requires_shipping : Bool
  quantity : Nat
  product_data : Option ProductNode
  deriving DecidableEq, Repr

/-- The fixed subset of shipping-address fields copied by the transform. -/
structure TransformedAddress where
  name : Option String
  address1 : Option String
  address2 : Option String
  city : Option String
  zip : Option String
  country_code : Option String
  phone : Option String
  deriving DecidableEq, Repr

/-- A transformed shipping line (`title`, `code`). -/
structure TransformedShippingLine where
  title : Option String
  code : Option String
  deriving DecidableEq, Repr

/-- The transformed order assembled by the webhook handler before the
upsert. `created_at` is the ingestion tick (`new Date().toISOString()`). -/
structure TransformedOrder where
  shopifyId : String
  orderNumber : Option String
  line_items : List TransformedLineItem
  total_item_count : Nat
  shipping_address : TransformedAddress
  shipping_method : ShippingMethod
  shipping_lines : List TransformedShippingLine
  created_at : Nat
  deriving DecidableEq, Repr

/-- `line_items.reduce((sum, item) => sum + item.current_quantity, 0)`. -/
def totalItemCount (w : WebhookOrder) : Nat :=
  w.line_items.foldl (fun s i => s + i.current_quantity) 0

/-- The title of the first shipping line, when both the line and its
`title` field exist (`shipping_lines[0]?.title`). -/
def firstShippingTitle (sls : List WebhookShippingLine) : Option String :=
  sls.head?.bind (fun sl => sl.title)

/-- `shipping_lines[0]?.title || ''`: an absent first line or absent title
falls back to the empty string (an empty-string title is also falsy in JS
and falls back to the same empty string). -/
def effectiveShippingTitle (sls : List WebhookShippingLine) : String :=
  (firstShippingTitle sls).getD ""

/-- The shipping-method inference of the webhook handler: exact string
match of the first shipping-line title, defaulting to `home_delivery`. -/
def defaultMethod (sls : List WebhookShippingLine) : ShippingMethod :=
  let shippingTitle := effectiveShippingTitle sls
  if shippingTitle = "Standard - Pickup Point" then ShippingMethod.service_point
  else if shippingTitle = "Standard - Home Delivery" then ShippingMethod.home_delivery
  else ShippingMethod.home_delivery

/-- Per-line transform: gid conversion, field copy, enrichment lookup with
`productsById[productId] || null`. -/
def transformLineItem (pb : String → Option ProductNode) (i : WebhookLineItem) :
    TransformedLineItem :=
  { title := i.title
    product_id := gidOf i.product_id
    variant_id := i.variant_id
    requires_shipping := i.requires_shipping
    quantity := i.current_quantity
    product_data := pb (gidOf i.product_id) }

/-- The copied shipping-address subset; `webhookOrder.shipping_address?.f`
for each field. -/
def transformAddress (a : Option WebhookAddress) : TransformedAddress :=
  { name := a.bind (fun x => x.name)
    address1 := a.bind (fun x => x.address1)
    address2 := a.bind (fun x => x.address2)
    city := a.bind (fun x => x.city)
    zip := a.bind (fun x => x.zip)
    country_code := a.bind (fun x => x.country_code)
    phone := a.bind (fun x => x.phone) }

/-- The `transformedOrder` object of the webhook handler. `none` models the
`TypeError` thrown when the payload has no `shipping_lines` array
(`shipping_lines[0]` and `shipping_lines.map` on `undefined`). -/
def transformOrder (now : Nat) (pb : String → Option ProductNode)
    (w : WebhookOrder) : Option TransformedOrder :=
  match w.shipping_lines with
  | none => none
  | some sls =>
    some
      { shopifyId := toString w.id
        orderNumber := w.order_number
        line_items := w.line_items.map (transformLineItem pb)
        total_item_count := totalItemCount w
        shipping_address := transformAddress w.shipping_address
        shipping_method := defaultMethod sls
        shipping_lines := sls.map (fun sl => { title := sl.title, code := sl.code })
        created_at := now }

/-- Carrier dimensions saved by the measurements endpoint
(schema: `length`, `width`, `height`, `weight`, `boxes`, all nullable). -/
structure Dimensions where
  length : Option Rat
  width : Option Rat
  height : Option Rat
  weight : Option Rat
  boxes : Option Rat
  deriving DecidableEq, Repr

/-- The pickup-point descriptor saved by the pickup-point endpoint. -/
structure PickupPoint where
  pupCode : Option String
  publicName : Option String
  streetAddress : Option String
  postcode : Option String
  city : Option String
  countryCode : Option String
  parcelLocker : Option Bool
  distance : Option String
  deriving DecidableEq, Repr

/-- A stored order record: the webhook-derived fields plus the fields set
by later user actions (`dimensions`, `pickupPoint`, `isFulfilled`). -/
structure StoredOrder where
  shopifyId : String
  orderNumber : Option String
  line_items : List TransformedLineItem
  total_item_count : Nat
  shipping_address : TransformedAddress
  shipping_method : ShippingMethod
  shipping_lines : List TransformedShippingLine
  created_at : Nat
  dimensions : Option Dimensions
  pickupPoint : Option PickupPoint
  isFulfilled : Bool
  deriving DecidableEq, Repr

/-- The webhook-derived fields of a stored record. -/
def baseOf (r : StoredOrder) : TransformedOrder :=
  { shopifyId := r.shopifyId
    orderNumber := r.orderNumber
    line_items := r.line_items
    total_item_count := r.total_item_count
    shipping_address := r.shipping_address
    shipping_method := r.shipping_method
    shipping_lines := r.shipping_lines
    created_at := r.created_at }

/-- A freshly inserted record (`setDefaultsOnInsert`): webhook fields from
the transform, schema defaults elsewhere. -/
def mkStored (t : TransformedOrder) : StoredOrder :=
  { shopifyId := t.shopifyId
    orderNumber := t.orderNumber
    line_items := t.line_items
    total_item_count := t.total_item_count
    shipping_address := t.shipping_address
    shipping_method := t.shipping_method
    shipping_lines := t.shipping_lines
    created_at := t.created_at
    dimensions := none
    pickupPoint := none
    isFulfilled := false }

/-- `$set: transformedOrder` on an existing record: every webhook-derived
field is overwritten, the user-action fields are untouched. -/
def setBase (t : TransformedOrder) (r : StoredOrder) : StoredOrder :=
  { mkStored t with
    dimensions := r.dimensions
    pickupPoint := r.pickupPoint
    isFulfilled := r.isFulfilled }

/-- `Order.findOneAndUpdate({ shopifyId }, { $set: transformedOrder },
{ upsert: true, setDefaultsOnInsert: true })` over a Mongo collection
modelled as a list of records in insertion order. -/
def upsertOrder (t : TransformedOrder) (s : List StoredOrder) : List StoredOrder :=
  if s.any (fun r => r.shopifyId == t.shopifyId) then
    s.map (fun r => if r.shopifyId == t.shopifyId then setBase t r else r)
  else
    s ++ [mkStored t]

/-- The `/api/webhook/orders` handler body after signature verification.
The enrichment call's outcome is an input: `Except.error` is a network or
JSON-parse failure of the batched GraphQL request (caught, 500, nothing
stored); `Except.ok none` is a response whose `data?.nodes` is absent
(the `?.forEach` is skipped and the lookup stays empty). -/
def handleWebhookMongo (now : Nat)
    (enrich : Except Unit (Option (List (Option ProductNode))))
    (w : WebhookOrder) (store : List StoredOrder) :
    HttpStatus × List StoredOrder :=
  match enrich with
  | Except.error _ => (HttpStatus.internalError500, store)
  | Except.ok nodes =>
    match transformOrder now (buildProductsById (nodes.getD [])) w with
    | none => (HttpStatus.internalError500, store)
    | some t => (HttpStatus.ok200, upsertOrder t store)

/-- `POST /api/update-measurements`: `findOneAndUpdate` without `upsert`;
no matching record yields a 404 and no write. -/
def updateMeasurements (orderId : String) (dims : Option Dimensions)
    (method : ShippingMethod) (s : List StoredOrder) :
    HttpStatus × List StoredOrder :=
  if s.any (fun r => r.shopifyId == orderId) then
    (HttpStatus.ok200,
      s.map (fun r =>
        if r.shopifyId == orderId then
          { r with dimensions := dims, shipping_method := method }
        else r))
  else
    (HttpStatus.notFound404, s)

/-- `POST /api/update-pickup-point`: `findOneAndUpdate` without `upsert`;
no matching record yields a 404 and no write. -/
def updatePickupPoint (orderId : String) (pp : Option PickupPoint)
    (s : List StoredOrder) : HttpStatus × List StoredOrder :=
  if s.any (fun r => r.shopifyId == orderId) then
    (HttpStatus.ok200,
      s.map (fun r =>
        if r.shopifyId == orderId then { r with pickupPoint := pp } else r))
  else
    (HttpStatus.notFound404, s)

/-- Descending insertion by `created_at`, modelling the Mongo
`sort({ created_at: -1 })`. -/
def insertDesc (o : StoredOrder) : List StoredOrder → List StoredOrder
  | [] => [o]
  | x :: xs =>
    if o.created_at ≤ x.created_at then x :: insertDesc o xs
    else o :: x :: xs

/-- The collection sorted by `created_at` descending. -/
def sortDesc (s : List StoredOrder) : List StoredOrder :=
  s.foldr insertDesc []

/-- `GET /api/orders`: `find().sort({ created_at: -1 }).limit(50)`. -/
def listOrdersMongo (s : List StoredOrder) : List StoredOrder :=
  (sortDesc s).take 50

/-! ### The in-memory revision (`server.js`, first variant)

Its transformed order keeps a different field subset; its store is a global
array updated with `ordersStore = [transformedOrder, ...ordersStore.slice(0, 49)]`
and `GET /api/orders` returns the array as is. -/

/-- The customer block of the in-memory revision's transformed order. -/
structure MemCustomer where
  email : Option String
  phone : Option String
  deriving DecidableEq, Repr

/-- A line item of the in-memory revision's transformed order. -/
structure MemLineItem where
  title : Option String
  product_id : Option Nat
  requires_shipping : Option Bool
  deriving DecidableEq, Repr

/-- A shipping line of the in-memory revision's transformed order. -/
structure MemShippingLine where
  title : Option String
  price : Option String
  deriving DecidableEq, Repr

/-- The in-memory revision's transformed order record. -/
structure MemOrder where
  id : Nat
  order_number : Option String
  source_name : Option String
  customer : MemCustomer
  shipping_address : TransformedAddress
  line_items : List MemLineItem
  shipping_lines : List MemShippingLine
  created_at : Option String
  deriving DecidableEq, Repr

/-- `ordersStore = [transformedOrder, ...ordersStore.slice(0, 49)]`. -/
def memIngest (o : MemOrder) (s : List MemOrder) : List MemOrder :=
  o :: s.take 49

/-- The in-memory revision's `GET /api/orders` returns the array as is. -/
def memListOrders (s : List MemOrder) : List MemOrder := s

/-! ### Signature verification

`verifyWebhook` computes `createHmac('sha256', secret).update(rawBody)
.digest('base64')` and compares it with the `X-Shopify-Hmac-Sha256` header
using strict string equality. The HMAC-SHA256 digest itself is an external
primitive, taken as a parameter producing the 32 digest bytes; the base64
encoding applied by `digest('base64')` is implemented concretely. -/

/-- The base64 alphabet. -/
def base64Table : List Char :=
  "ABCDEFGHIJKLMNOPQRSTUVWXYZabcdefghijklmnopqrstuvwxyz0123456789+/".toList

/-- The base64 character of a sextet value. -/
def sextetChar (n : Nat) : Char :=
  base64Table.getD n 'A'

/-- The index of a base64 character in the alphabet. -/
def sextetIndex (c : Char) : Nat :=
  base64Table.indexOf c

/-- Standard base64 encoding of a byte list, as a character list. -/
def base64encodeList : List Nat → List Char
  | [] => []
  | [b1] =>
    [sextetChar (b1 / 4), sextetChar (b1 % 4 * 16), '=', '=']
  | [b1, b2] =>
    [sextetChar (b1 / 4), sextetChar (b1 % 4 * 16 + b2 / 16),
      sextetChar (b2 % 16 * 4), '=']
  | b1 :: b2 :: b3 :: rest =>
    sextetChar (b1 / 4) :: sextetChar (b1 % 4 * 16 + b2 / 16) ::
      sextetChar (b2 % 16 * 4 + b3 / 64) :: sextetChar (b3 % 64) ::
        base64encodeList rest

/-- `digest('base64')`: base64 encoding of the digest bytes as a string. -/
def base64encode (bytes : List Nat) : String :=
  String.mk (base64encodeList bytes)

/-- Base64 decoding (chunk-wise left inverse of `base64encodeList` on byte
lists); used to prove the encoding injective. -/
def base64decodeList : List Char → Option (List Nat)
  | [] => some []
  | c1 :: c2 :: c3 :: c4 :: rest =>
    if c3 = '=' then
      if c4 = '=' ∧ rest = [] then
        some [sextetIndex c1 * 4 + sextetIndex c2 / 16]
      else none
    else if c4 = '=' then
      if rest = [] then
        some [sextetIndex c1 * 4 + sextetIndex c2 / 16,
          sextetIndex c2 % 16 * 16 + sextetIndex c3 / 4]
      else none
    else
      (base64decodeList rest).map (fun tail =>
        (sextetIndex c1 * 4 + sextetIndex c2 / 16) ::
          (sextetIndex c2 % 16 * 16 + sextetIndex c3 / 4) ::
            (sextetIndex c3 % 4 * 64 + sextetIndex c4) :: tail)
  | _ => none

/-- The `verifyWebhook` middleware: `digest` stands for the HMAC-SHA256
primitive mapping the shared secret and the raw body bytes to the 32
digest bytes. A missing secret makes `createHmac` throw (caught, reject);
a missing header compares unequal to the computed base64 string (reject);
otherwise the request passes exactly when the header equals the base64
encoding of the digest. -/
def verifyWebhook (digest : String → List Nat → List Nat)
    (secret : Option String) (sigHeader : Option String)
    (rawBody : List Nat) : Bool :=
  match secret with
  | none => false
  | some sk => sigHeader == some (base64encode (digest sk rawBody))

/-! ### Concrete fixtures (used to evaluate the verified operations) -/

/-- An all-absent transformed address. -/
def blankAddress : TransformedAddress :=
  { name := none, address1 := none, address2 := none, city := none,
    zip := none, country_code := none, phone := none }

/-- The line item of the spec's end-to-end example: product 55, quantity 2. -/
def wItem55 : WebhookLineItem :=
  { title := some "Widget", product_id := 55, variant_id := none,
    requires_shipping := true, current_quantity := 2 }

/-- A shipping line titled with the configured pickup-point label. -/
def slPickup : WebhookShippingLine :=
  { title := some "Standard - Pickup Point", code := none }

/-- A shipping line titled with the home-delivery label. -/
def slHome : WebhookShippingLine :=
  { title := some "Standard - Home Delivery", code := none }

/-- The spec's end-to-end example payload (order 1001, one line item of
quantity 2, a pickup-point shipping line). -/
def wPayload : WebhookOrder :=
  { id := 1001, order_number := some "A1", line_items := [wItem55],
    shipping_address := none, shipping_lines := some [slPickup] }

/-- The example payload with the `shipping_lines` field missing. -/
def wNoLines : WebhookOrder :=
  { wPayload with shipping_lines := none }

/-- The example payload with an empty `shipping_lines` array. -/
def wEmptyLines : WebhookOrder :=
  { wPayload with shipping_lines := some [] }

/-- A second payload whose first shipping line matches the pickup label
but which carries a different trailing shipping line. -/
def wPayload2 : WebhookOrder :=
  { wPayload with id := 1002, shipping_lines := some [slPickup, slHome] }

/-- A concrete stand-in for the HMAC-SHA256 digest primitive: 32 bytes
determined by the first byte of the body. -/
def digest0 : String → List Nat → List Nat :=
  fun _ body => List.replicate 31 0 ++ [body.headD 0 % 256]

/-- A transformed order with identifier and ingestion tick `n`. -/
def mkT (n : Nat) : TransformedOrder :=
  { shopifyId := toString n, orderNumber := none, line_items := [],
    total_item_count := 0, shipping_address := blankAddress,
    shipping_method := ShippingMethod.home_delivery, shipping_lines := [],
    created_at := n }

/-- An in-memory order with identifier `n`. -/
def mkM (n : Nat) : MemOrder :=
  { id := n, order_number := none, source_name := none,
    customer := { email := none, phone := none },
    shipping_address := blankAddress, line_items := [],
    shipping_lines := [], created_at := none }

/-- Sixty transformed orders with distinct identifiers and strictly
increasing ingestion ticks. -/
def ts60 : List TransformedOrder := (List.range 60).map mkT

/-- Sixty in-memory orders with distinct identifiers. -/
def ms60 : List MemOrder := (List.range 60).map mkM

/-- An in-memory order with external id 1001. -/
def memDup1 : MemOrder := mkM 1001

/-- A different in-memory order sharing external id 1001. -/
def memDup2 : MemOrder := { mkM 1001 with order_number := some "B2" }

/-- Two transformed orders sharing the same `shopifyId`. -/
def tA : TransformedOrder := mkT 7

/-- A later ingestion for the same `shopifyId` as `tA`, with different
webhook-derived fields. -/
def tB : TransformedOrder := { mkT 7 with total_item_count := 5 }

/-! ### Properties of the base64 encoding -/

theorem sextetIndex_sextetChar : ∀ n, n < 64 → sextetIndex (sextetChar n) = n := by
  decide

theorem sextetChar_ne_pad : ∀ n, n < 64 → sextetChar n ≠ '=' := by
  decide

theorem base64_roundtrip :
    ∀ l : List Nat, (∀ b ∈ l, b < 256) →
      base64decodeList (base64encodeList l) = some l
  | [], _ => rfl
  | [b1], h => by
    have hb1 : b1 < 256 := h b1 (by simp)
    have e1 := sextetIndex_sextetChar (b1 / 4) (by omega)
    have e2 := sextetIndex_sextetChar (b1 % 4 * 16) (by omega)
    simp [base64encodeList, base64decodeList, e1, e2]
    omega
  | [b1, b2], h => by
    have hb1 : b1 < 256 := h b1 (by simp)
    have hb2 : b2 < 256 := h b2 (by simp)
    have e1 := sextetIndex_sextetChar (b1 / 4) (by omega)
    have e2 := sextetIndex_sextetChar (b1 % 4 * 16 + b2 / 16) (by omega)
    have e3 := sextetIndex_sextetChar (b2 % 16 * 4) (by omega)
    have n3 := sextetChar_ne_pad (b2 % 16 * 4) (by omega)
    simp [base64encodeList, base64decodeList, n3, e1, e2, e3]
    omega
  | b1 :: b2 :: b3 :: rest, h => by
    have hb1 : b1 < 256 := h b1 (by simp)
    have hb2 : b2 < 256 := h b2 (by simp)
    have hb3 : b3 < 256 := h b3 (by simp)
    have e1 := sextetIndex_sextetChar (b1 / 4) (by omega)
    have e2 := sextetIndex_sextetChar (b1 % 4 * 16 + b2 / 16) (by omega)
    have e3 := sextetIndex_sextetChar (b2 % 16 * 4 + b3 / 64) (by omega)
    have e4 := sextetIndex_sextetChar (b3 % 64) (by omega)
    have n3 := sextetChar_ne_pad (b2 % 16 * 4 + b3 / 64) (by omega)
    have n4 := sextetChar_ne_pad (b3 % 64) (by omega)
    have ih := base64_roundtrip rest (fun b hb => h b (by simp [hb]))
    simp [base64encodeList, base64decodeList, n3, n4, ih, e1, e2, e3, e4]
    omega

theorem base64encode_injOn {l1 l2 : List Nat}
    (h1 : ∀ b ∈ l1, b < 256) (h2 : ∀ b ∈ l2, b < 256)
    (he : base64encode l1 = base64encode l2) : l1 = l2 := by
  have hl : base64encodeList l1 = base64encodeList l2 := congrArg String.data he
  have hd : base64decodeList (base64encodeList l1)
      = base64decodeList (base64encodeList l2) := by rw [hl]
  rw [base64_roundtrip l1 h1, base64_roundtrip l2 h2] at hd
  exact Option.some.inj hd

theorem base64encode_ne_empty {l : List Nat} (hl : l ≠ []) :
    base64encode l ≠ "" := by
  intro hc
  have hd : base64encodeList l = ("" : String).data := congrArg String.data hc
  rcases l with _ | ⟨b1, _ | ⟨b2, _ | ⟨b3, rest⟩⟩⟩
  · exact hl rfl
  all_goals simp [base64encodeList] at hd

/-! ### Properties of the Mongo-modelled upsert -/

theorem baseOf_mkStored (t : TransformedOrder) : baseOf (mkStored t) = t := rfl

theorem baseOf_setBase (t : TransformedOrder) (r : StoredOrder) :
    baseOf (setBase t r) = t := rfl

theorem upsert_cons_ne (t : TransformedOrder) (r : StoredOrder)
    (rest : List StoredOrder) (hr : (r.shopifyId == t.shopifyId) = false) :
    upsertOrder t (r :: rest) = r :: upsertOrder t rest := by
  unfold upsertOrder
  simp only [List.any_cons, hr, Bool.false_or]
  by_cases h : rest.any (fun x => x.shopifyId == t.shopifyId)
  · rw [if_pos h, if_pos h, List.map_cons, if_neg (by simp [hr])]
  · rw [if_neg h, if_neg h, List.cons_append]

theorem upsert_not_mem (t : TransformedOrder) (s : List StoredOrder)
    (h : s.any (fun r => r.shopifyId == t.shopifyId) = false) :
    upsertOrder t s = s ++ [mkStored t] := by
  unfold upsertOrder
  simp [h]

theorem upsert_ids (t : TransformedOrder) (s : List StoredOrder) :
    (upsertOrder t s).map (fun r => r.shopifyId) =
      if s.any (fun r => r.shopifyId == t.shopifyId) then
        s.map (fun r => r.shopifyId)
      else s.map (fun r => r.shopifyId) ++ [t.shopifyId] := by
  unfold upsertOrder
  split
  · rw [List.map_map]
    refine List.map_congr_left (fun r hr => ?_)
    by_cases hrq : r.shopifyId = t.shopifyId
    · simp [Function.comp, hrq, setBase, mkStored]
    · simp [Function.comp, hrq, beq_iff_eq]
  · simp [mkStored]

theorem upsert_nodup (t : TransformedOrder) (s : List StoredOrder)
    (h : (s.map (fun r => r.shopifyId)).Nodup) :
    ((upsertOrder t s).map (fun r => r.shopifyId)).Nodup := by
  rw [upsert_ids]
  split
  · exact h
  case isFalse hf =>
    have hf' : ∀ r ∈ s, ¬(r.shopifyId == t.shopifyId) = true :=
      List.any_eq_false.mp (by simpa using hf)
    rw [List.nodup_append]
    refine ⟨h, List.nodup_singleton _, ?_⟩
    intro a ha hb
    rw [List.mem_singleton] at hb
    obtain ⟨r, hr, hra⟩ := List.mem_map.mp ha
    exact hf' r hr (beq_iff_eq.mpr (hra.trans hb))

theorem upsert_count (t : TransformedOrder) (s : List StoredOrder)
    (h : (s.map (fun r => r.shopifyId)).Nodup) :
    ((upsertOrder t s).filter (fun r => r.shopifyId == t.shopifyId)).length = 1 := by
  induction s with
  | nil => simp [upsertOrder, mkStored]
  | cons r rest ih =>
    simp only [List.map_cons, List.nodup_cons] at h
    by_cases hr : r.shopifyId = t.shopifyId
    · have hbeq : (r.shopifyId == t.shopifyId) = true := beq_iff_eq.mpr hr
      have hany : (r :: rest).any (fun x => x.shopifyId == t.shopifyId) = true := by
        simp [List.any_cons, hbeq]
      have hrest : ∀ x ∈ rest, (x.shopifyId == t.shopifyId) = false := by
        intro x hx
        rw [beq_eq_false_iff_ne]
        intro hxe
        have hxr : x.shopifyId = r.shopifyId := by rw [hxe, hr]
        exact h.1 (hxr ▸ List.mem_map.mpr ⟨x, hx, rfl⟩)
      have hmap : rest.map (fun x =>
          if x.shopifyId == t.shopifyId then setBase t x else x) = rest := by
        have hcongr := List.map_congr_left (l := rest)
          (f := fun x => if x.shopifyId == t.shopifyId then setBase t x else x)
          (g := id) (fun x hx => by
            show (if (x.shopifyId == t.shopifyId) = true then setBase t x else x) = id x
            rw [if_neg (by simp [hrest x hx])]
            rfl)
        rw [hcongr, List.map_id]
      have hfil : rest.filter (fun x => x.shopifyId == t.shopifyId) = [] :=
        List.filter_eq_nil_iff.mpr (fun x hx => by simp [hrest x hx])
      unfold upsertOrder
      rw [if_pos hany, List.map_cons, if_pos hbeq, hmap, List.filter_cons,
        if_pos (show ((setBase t r).shopifyId == t.shopifyId) = true from
          beq_self_eq_true t.shopifyId),
        hfil]
      rfl
    · have hbeq : (r.shopifyId == t.shopifyId) = false := beq_eq_false_iff_ne.mpr hr
      rw [upsert_cons_ne t r rest hbeq, List.filter_cons, if_neg (by simp [hbeq])]
      exact ih h.2

theorem upsert_overwrites (t : TransformedOrder) (s : List StoredOrder) :
    ∀ r ∈ upsertOrder t s, r.shopifyId = t.shopifyId → baseOf r = t := by
  intro r hr hid
  unfold upsertOrder at hr
  split at hr
  · obtain ⟨x, hx, hxr⟩ := List.mem_map.mp hr
    by_cases hxq : x.shopifyId = t.shopifyId
    · rw [if_pos (beq_iff_eq.mpr hxq)] at hxr
      rw [← hxr]
      exact baseOf_setBase t x
    · rw [if_neg (by simpa [beq_iff_eq] using hxq)] at hxr
      exact absurd (hxr ▸ hid) hxq
  case isFalse hf =>
    rcases List.mem_append.mp hr with h1 | h2
    · have hf' : ∀ x ∈ s, ¬(x.shopifyId == t.shopifyId) = true :=
        List.any_eq_false.mp (by simpa using hf)
      exact absurd (beq_iff_eq.mpr hid) (hf' r h1)
    · rw [List.mem_singleton] at h2
      rw [h2]
      exact baseOf_mkStored t

/-! ### Properties of the recency-capped listings -/

theorem take_append_take {α : Type} (A B : List α) (n : Nat) :
    (A ++ B.take n).take n = (A ++ B).take n := by
  rw [List.take_append_eq_append_take, List.take_append_eq_append_take,
    List.take_take]
  have hmin : (n - A.length) ⊓ n = n - A.length :=
    inf_eq_left.mpr (Nat.sub_le n A.length)
  rw [hmin]

theorem reverse_take_of_sixty {α : Type} (l : List α) (h : l.length = 60) :
    l.reverse.take 50 = (l.drop 10).reverse := by
  conv_lhs => rw [← List.take_append_drop 10 l]
  rw [List.reverse_append]
  have hlen : (l.drop 10).reverse.length = 50 := by simp [h]
  rw [← hlen, List.take_left]

theorem memIngest_length_le (o : MemOrder) (s : List MemOrder) :
    (memIngest o s).length ≤ 50 := by
  simp only [memIngest, List.length_cons, List.length_take]
  omega

theorem memFold (l : List MemOrder) (s : List MemOrder) (hs : s.length ≤ 50) :
    l.foldl (fun acc o => memIngest o acc) s = (l.reverse ++ s).take 50 := by
  induction l generalizing s with
  | nil => simp [List.take_of_length_le hs]
  | cons o t ih =>
    simp only [List.foldl_cons]
    rw [ih (memIngest o s) (memIngest_length_le o s)]
    have h1 : memIngest o s = (o :: s).take 50 := by
      simp [memIngest, List.take_succ_cons]
    rw [h1, take_append_take]
    simp [List.append_assoc]

theorem insertDesc_maxLast (o : StoredOrder) (l : List StoredOrder)
    (h : ∀ x ∈ l, o.created_at ≤ x.created_at) :
    insertDesc o l = l ++ [o] := by
  induction l with
  | nil => rfl
  | cons x xs ih =>
    simp only [insertDesc, if_pos (h x (by simp))]
    rw [ih (fun y hy => h y (by simp [hy])), List.cons_append]

theorem sortDesc_of_increasing (l : List StoredOrder)
    (h : l.Pairwise (fun a b => a.created_at < b.created_at)) :
    sortDesc l = l.reverse := by
  induction l with
  | nil => rfl
  | cons x xs ih =>
    rw [List.pairwise_cons] at h
    show insertDesc x (xs.foldr insertDesc []) = (x :: xs).reverse
    rw [show xs.foldr insertDesc [] = sortDesc xs from rfl, ih h.2]
    rw [insertDesc_maxLast x xs.reverse
      (fun y hy => le_of_lt (h.1 y (List.mem_reverse.mp hy)))]
    simp

theorem fold_upsert_fresh :
    ∀ (ts : List TransformedOrder) (s : List StoredOrder),
      (s.map (fun r => r.shopifyId) ++ ts.map (fun t => t.shopifyId)).Nodup →
      ts.foldl (fun acc t => upsertOrder t acc) s = s ++ ts.map mkStored := by
  intro ts
  induction ts with
  | nil => intro s _; simp
  | cons t rest ih =>
    intro s h
    simp only [List.foldl_cons, List.map_cons]
    have hmid := List.nodup_middle.mp (by simpa using h)
    rw [List.nodup_cons] at hmid
    have hnot : s.any (fun r => r.shopifyId == t.shopifyId) = false := by
      rw [List.any_eq_false]
      intro r hr hbeq
      have : t.shopifyId ∈ s.map (fun r => r.shopifyId) :=
        List.mem_map.mpr ⟨r, hr, beq_iff_eq.mp hbeq⟩
      exact hmid.1 (List.mem_append.mpr (Or.inl this))
    rw [upsert_not_mem t s hnot]
    rw [ih (s ++ [mkStored t]) ?_]
    · rw [List.append_assoc, List.singleton_append]
    · have : (s ++ [mkStored t]).map (fun r => r.shopifyId)
          = s.map (fun r => r.shopifyId) ++ [t.shopifyId] := by
        simp [mkStored]
      rw [this, List.append_assoc, List.singleton_append]
      simpa using h

/-! ### Unfolding lemmas for the transform and the webhook handler -/

theorem transform_some (now : Nat) (pb : String → Option ProductNode)
    (w : WebhookOrder) (sls : List WebhookShippingLine)
    (hl : w.shipping_lines = some sls) :
    transformOrder now pb w = some
      { shopifyId := toString w.id
        orderNumber := w.order_number
        line_items := w.line_items.map (transformLineItem pb)
        total_item_count := totalItemCount w
        shipping_address := transformAddress w.shipping_address
        shipping_method := defaultMethod sls
        shipping_lines := sls.map (fun sl => { title := sl.title, code := sl.code })
        created_at := now } := by
  unfold transformOrder
  rw [hl]

theorem handle_ok (now : Nat) (nodes : List (Option ProductNode))
    (w : WebhookOrder) (store : List StoredOrder) (t : TransformedOrder)
    (ht : transformOrder now (buildProductsById nodes) w = some t) :
    handleWebhookMongo now (Except.ok (some nodes)) w store =
      (HttpStatus.ok200, upsertOrder t store) := by
  simp only [handleWebhookMongo, Option.getD_some]
  rw [ht]

theorem handle_transform_failure (now : Nat) (nodes : List (Option ProductNode))
    (w : WebhookOrder) (store : List StoredOrder)
    (ht : transformOrder now (buildProductsById nodes) w = none) :
    handleWebhookMongo now (Except.ok (some nodes)) w store =
      (HttpStatus.internalError500, store) := by
  simp only [handleWebhookMongo, Option.getD_some]
  rw [ht]

theorem foldl_add_quantity (l : List WebhookLineItem) (n : Nat) :
    l.foldl (fun s i => s + i.current_quantity) n =
      n + (l.map (fun i => i.current_quantity)).sum := by
  induction l generalizing n with
  | nil => simp
  | cons i t ih => simp [ih, Nat.add_assoc]

/-! ### Claims -/

/-- Claim C1, counterexample: in the in-memory revision, ingesting two
orders that share external id 1001 leaves two records for that id in the
store, not one; re-ingesting an already-stored id duplicates it. -/
theorem C1_counterexample :
    memDup1.id = 1001 ∧ memDup2.id = 1001 ∧ memDup1 ≠ memDup2 ∧
    ((memListOrders (memIngest memDup2 (memIngest memDup1 []))).filter
      (fun o => o.id == 1001)).length = 2 := by
  refine ⟨rfl, rfl, by decide, rfl⟩

/-- Claim C1, amended: in the Mongo-backed revision, upserting twice with
the same `shopifyId` into a store whose ids are unique leaves exactly one
record for that id, and every record carrying that id has exactly the
webhook-derived fields of the later ingestion (overwrite, not merge). -/
theorem C1_upsert_unique (t1 t2 : TransformedOrder) (s : List StoredOrder)
    (hs : (s.map (fun r => r.shopifyId)).Nodup)
    (hid : t1.shopifyId = t2.shopifyId) :
    ((upsertOrder t2 (upsertOrder t1 s)).filter
      (fun r => r.shopifyId == t2.shopifyId)).length = 1 ∧
    ∀ r ∈ upsertOrder t2 (upsertOrder t1 s),
      r.shopifyId = t2.shopifyId → baseOf r = t2 := by
  have h1 := upsert_nodup t1 s hs
  exact ⟨upsert_count t2 (upsertOrder t1 s) h1,
    upsert_overwrites t2 (upsertOrder t1 s)⟩

/-- Witness for the amended C1 at a concrete double ingestion. -/
theorem C1_upsert_unique_witness :
    ((([] : List StoredOrder).map (fun r => r.shopifyId)).Nodup ∧
      tA.shopifyId = tB.shopifyId) ∧
    ((upsertOrder tB (upsertOrder tA [])).filter
      (fun r => r.shopifyId == tB.shopifyId)).length = 1 :=
  ⟨⟨List.nodup_nil, rfl⟩, (C1_upsert_unique tA tB [] List.nodup_nil rfl).1⟩

/-- Claim C2, counterexample: a payload with no `shipping_lines` array is
not transformed; the webhook handler answers 500 instead of storing. -/
theorem C2_counterexample :
    transformOrder 0 (buildProductsById []) wNoLines = none ∧
    handleWebhookMongo 0 (Except.ok (some [])) wNoLines [] =
      (HttpStatus.internalError500, []) :=
  ⟨rfl, rfl⟩

/-- Claim C2, amended: when the `shipping_lines` field is present (even as
an empty array) the transform is total — an absent shipping address
degrades to all-absent fields and an empty shipping-lines array degrades
to `home_delivery` with no stored lines — but a payload lacking the
`shipping_lines` field entirely makes the handler fail with 500. -/
theorem C2_total_when_lines_present :
    (∀ (now : Nat) (pb : String → Option ProductNode) (w : WebhookOrder)
        (sls : List WebhookShippingLine), w.shipping_lines = some sls →
      ∃ t, transformOrder now pb w = some t ∧
        (w.shipping_address = none → t.shipping_address = blankAddress) ∧
        (sls = [] → t.shipping_method = ShippingMethod.home_delivery ∧
          t.shipping_lines = [])) ∧
    (∀ (now : Nat) (nodes : List (Option ProductNode)) (w : WebhookOrder)
        (store : List StoredOrder), w.shipping_lines = none →
      handleWebhookMongo now (Except.ok (some nodes)) w store =
        (HttpStatus.internalError500, store)) := by
  constructor
  · intro now pb w sls hl
    refine ⟨_, transform_some now pb w sls hl, ?_, ?_⟩
    · intro ha
      show transformAddress w.shipping_address = blankAddress
      rw [ha]
      rfl
    · intro hsl
      subst hsl
      exact ⟨rfl, rfl⟩
  · intro now nodes w store hl
    refine handle_transform_failure now nodes w store ?_
    unfold transformOrder
    rw [hl]

/-- Witness for the amended C2: the example payload with an empty
shipping-lines array transforms totally; without the field, ingestion
fails with 500 and stores nothing. -/
theorem C2_total_when_lines_present_witness :
    (wEmptyLines.shipping_lines = some [] ∧ wNoLines.shipping_lines = none) ∧
    (∃ t, transformOrder 0 (buildProductsById []) wEmptyLines = some t ∧
      (wEmptyLines.shipping_address = none → t.shipping_address = blankAddress) ∧
      (([] : List WebhookShippingLine) = [] →
        t.shipping_method = ShippingMethod.home_delivery ∧
        t.shipping_lines = [])) ∧
    handleWebhookMongo 0 (Except.ok (some [])) wNoLines [] =
      (HttpStatus.internalError500, []) :=
  ⟨⟨rfl, rfl⟩,
    C2_total_when_lines_present.1 0 (buildProductsById []) wEmptyLines [] rfl,
    C2_total_when_lines_present.2 0 [] wNoLines [] rfl⟩

/-- Claim C3: signature verification rejects a missing signature header, a
missing secret, any header differing from the base64-encoded HMAC of the
raw body, and the empty header in particular; and a signature valid for
one body is rejected for any body whose HMAC digest differs (single-byte
mutations included, by collision-freedom of the digest), while the
matching signature is accepted. -/
theorem C3_signature_verification (digest : String → List Nat → List Nat)
    (secret sigHeader : Option String) (body : List Nat) :
    (sigHeader = none → verifyWebhook digest secret sigHeader body = false) ∧
    (secret = none → verifyWebhook digest secret sigHeader body = false) ∧
    (∀ sk, secret = some sk →
      sigHeader ≠ some (base64encode (digest sk body)) →
      verifyWebhook digest secret sigHeader body = false) ∧
    (∀ sk, secret = some sk → (digest sk body).length = 32 →
      verifyWebhook digest secret (some "") body = false) ∧
    (∀ sk, secret = some sk →
      verifyWebhook digest secret
        (some (base64encode (digest sk body))) body = true) ∧
    (∀ sk (body2 : List Nat), secret = some sk →
      (∀ b ∈ digest sk body, b < 256) → (∀ b ∈ digest sk body2, b < 256) →
      digest sk body ≠ digest sk body2 →
      verifyWebhook digest secret
        (some (base64encode (digest sk body))) body2 = false) := by
  refine ⟨?_, ?_, ?_, ?_, ?_, ?_⟩
  · intro h
    subst h
    cases secret <;> rfl
  · intro h
    subst h
    rfl
  · intro sk hs hne
    subst hs
    show (sigHeader == some (base64encode (digest sk body))) = false
    rw [beq_eq_false_iff_ne]
    exact hne
  · intro sk hs hlen
    subst hs
    show ((some "" : Option String) == some (base64encode (digest sk body))) = false
    rw [beq_eq_false_iff_ne]
    intro hc
    have hne : digest sk body ≠ [] := by
      intro h0
      rw [h0] at hlen
      simp at hlen
    exact base64encode_ne_empty hne (Option.some.inj hc).symm
  · intro sk hs
    subst hs
    show (some (base64encode (digest sk body))
        == some (base64encode (digest sk body))) = true
    exact beq_self_eq_true _
  · intro sk body2 hs h1 h2 hne
    subst hs
    show (some (base64encode (digest sk body))
        == some (base64encode (digest sk body2))) = false
    rw [beq_eq_false_iff_ne]
    intro hc
    exact hne (base64encode_injOn h1 h2 (Option.some.inj hc))

/-- Witness for C3 at a concrete digest function, secret and bodies. -/
theorem C3_signature_verification_witness :
    verifyWebhook digest0 (some "secret")
      (some (base64encode (digest0 "secret" [1]))) [1] = true ∧
    verifyWebhook digest0 (some "secret")
      (some (base64encode (digest0 "secret" [1]))) [2] = false ∧
    verifyWebhook digest0 (some "secret") (some "") [1] = false ∧
    verifyWebhook digest0 none (some "x") [1] = false ∧
    verifyWebhook digest0 (some "secret") none [1] = false :=
  ⟨(C3_signature_verification digest0 (some "secret")
      (some (base64encode (digest0 "secret" [1]))) [1]).2.2.2.2.1 "secret" rfl,
   (C3_signature_verification digest0 (some "secret")
      (some (base64encode (digest0 "secret" [1]))) [1]).2.2.2.2.2 "secret" [2]
      rfl (by decide) (by decide) (by decide),
   (C3_signature_verification digest0 (some "secret")
      (some "") [1]).2.2.2.1 "secret" rfl (by decide),
   (C3_signature_verification digest0 none (some "x") [1]).2.1 rfl,
   (C3_signature_verification digest0 (some "secret") none [1]).1 rfl⟩

/-- Claim C4: the stored shipping method is `service_point` exactly when
the effective first shipping-line title is the configured pickup-point
label, and `home_delivery` for every other title (the empty and absent
cases included, both of which yield the empty effective title). -/
theorem C4_shipping_method_from_title (now : Nat)
    (pb : String → Option ProductNode) (w : WebhookOrder)
    (sls : List WebhookShippingLine) (hl : w.shipping_lines = some sls) :
    ∃ t, transformOrder now pb w = some t ∧
      (t.shipping_method = ShippingMethod.service_point ↔
        effectiveShippingTitle sls = "Standard - Pickup Point") ∧
      (effectiveShippingTitle sls ≠ "Standard - Pickup Point" →
        t.shipping_method = ShippingMethod.home_delivery) := by
  refine ⟨_, transform_some now pb w sls hl, ?_, ?_⟩
  · show defaultMethod sls = ShippingMethod.service_point ↔
      effectiveShippingTitle sls = "Standard - Pickup Point"
    simp only [defaultMethod]
    by_cases he : effectiveShippingTitle sls = "Standard - Pickup Point"
    · rw [if_pos he]
      exact ⟨fun _ => he, fun _ => rfl⟩
    · rw [if_neg he]
      constructor
      · intro hm
        split at hm <;> exact ShippingMethod.noConfusion hm
      · intro he2
        exact absurd he2 he
  · intro hne
    show defaultMethod sls = ShippingMethod.home_delivery
    simp only [defaultMethod]
    rw [if_neg hne]
    split <;> rfl

/-- Witness for C4 at the example payload with a pickup-point line. -/
theorem C4_shipping_method_from_title_witness :
    wPayload.shipping_lines = some [slPickup] ∧
    (∃ t, transformOrder 0 (buildProductsById []) wPayload = some t ∧
      (t.shipping_method = ShippingMethod.service_point ↔
        effectiveShippingTitle [slPickup] = "Standard - Pickup Point") ∧
      (effectiveShippingTitle [slPickup] ≠ "Standard - Pickup Point" →
        t.shipping_method = ShippingMethod.home_delivery)) :=
  ⟨rfl, C4_shipping_method_from_title 0 (buildProductsById []) wPayload
    [slPickup] rfl⟩

/-- Claim C5: a line item whose gid is absent from the catalog response is
transformed with `product_data = null`, it still appears among the
transformed line items, and ingestion succeeds and stores the order. -/
theorem C5_missing_product_null (now : Nat)
    (nodes : List (Option ProductNode)) (w : WebhookOrder)
    (sls : List WebhookShippingLine) (store : List StoredOrder)
    (i : WebhookLineItem) (hl : w.shipping_lines = some sls)
    (hi : i ∈ w.line_items)
    (hmiss : buildProductsById nodes (gidOf i.product_id) = none) :
    ∃ t, transformOrder now (buildProductsById nodes) w = some t ∧
      transformLineItem (buildProductsById nodes) i ∈ t.line_items ∧
      (transformLineItem (buildProductsById nodes) i).product_data = none ∧
      handleWebhookMongo now (Except.ok (some nodes)) w store =
        (HttpStatus.ok200, upsertOrder t store) := by
  refine ⟨_, transform_some now (buildProductsById nodes) w sls hl, ?_, ?_, ?_⟩
  · exact List.mem_map_of_mem _ hi
  · show (transformLineItem (buildProductsById nodes) i).product_data = none
    simp [transformLineItem, hmiss]
  · exact handle_ok now nodes w store _
      (transform_some now (buildProductsById nodes) w sls hl)

/-- Witness for C5: the spec's end-to-end example, with a catalog response
matching nothing for product 55. -/
theorem C5_missing_product_null_witness :
    (wPayload.shipping_lines = some [slPickup] ∧
      wItem55 ∈ wPayload.line_items ∧
      buildProductsById [] (gidOf wItem55.product_id) = none) ∧
    (∃ t, transformOrder 0 (buildProductsById []) wPayload = some t ∧
      transformLineItem (buildProductsById []) wItem55 ∈ t.line_items ∧
      (transformLineItem (buildProductsById []) wItem55).product_data = none ∧
      handleWebhookMongo 0 (Except.ok (some [])) wPayload [] =
        (HttpStatus.ok200, upsertOrder t [])) :=
  ⟨⟨rfl, by decide, rfl⟩,
   C5_missing_product_null 0 [] wPayload [slPickup] [] wItem55 rfl
     (by decide) rfl⟩

/-- Claim C6: when the batched enrichment call fails (network or parse
failure), the webhook handler answers 500 and the store is returned
unchanged — nothing is stored or modified. -/
theorem C6_enrichment_failure_atomic (now : Nat) (e : Unit)
    (w : WebhookOrder) (store : List StoredOrder) :
    handleWebhookMongo now (Except.error e) w store =
      (HttpStatus.internalError500, store) := rfl

/-- Claim C7: when no stored record carries the requested id, both
partial-update endpoints answer 404 and return the store unchanged —
in particular no record is created. -/
theorem C7_unknown_id_not_found (orderId : String) (dims : Option Dimensions)
    (method : ShippingMethod) (pp : Option PickupPoint)
    (s : List StoredOrder) (h : ∀ r ∈ s, r.shopifyId ≠ orderId) :
    updateMeasurements orderId dims method s = (HttpStatus.notFound404, s) ∧
    updatePickupPoint orderId pp s = (HttpStatus.notFound404, s) := by
  have hany : s.any (fun r => r.shopifyId == orderId) = false :=
    List.any_eq_false.mpr (fun r hr => by
      rw [beq_iff_eq]
      exact h r hr)
  constructor
  · unfold updateMeasurements
    rw [if_neg (by simp [hany])]
  · unfold updatePickupPoint
    rw [if_neg (by simp [hany])]

/-- Witness for C7 at the empty store. -/
theorem C7_unknown_id_not_found_witness :
    (∀ r ∈ ([] : List StoredOrder), r.shopifyId ≠ "999") ∧
    (updateMeasurements "999" none ShippingMethod.home_delivery [] =
        (HttpStatus.notFound404, []) ∧
      updatePickupPoint "999" none [] = (HttpStatus.notFound404, [])) :=
  ⟨fun r hr => absurd hr (List.not_mem_nil r),
   C7_unknown_id_not_found "999" none ShippingMethod.home_delivery none []
     (fun r hr => absurd hr (List.not_mem_nil r))⟩

/-- Claim C8: after ingesting 60 orders with distinct identifiers (and, in
the Mongo-backed revision, strictly increasing ingestion timestamps), the
listing returns exactly the 50 most recently ingested orders newest first,
in both revisions; and neither listing can exceed 50 entries. -/
theorem C8_recency_cap (ts : List TransformedOrder) (ms : List MemOrder)
    (hids : (ts.map (fun t => t.shopifyId)).Nodup)
    (hmono : ts.Pairwise (fun a b => a.created_at < b.created_at))
    (hts : ts.length = 60) (hms : ms.length = 60) :
    listOrdersMongo (ts.foldl (fun s t => upsertOrder t s) []) =
      ((ts.drop 10).map mkStored).reverse ∧
    memListOrders (ms.foldl (fun s o => memIngest o s) []) =
      (ms.drop 10).reverse ∧
    (∀ (o : MemOrder) (s : List MemOrder), (memIngest o s).length ≤ 50) ∧
    (∀ s : List StoredOrder, (listOrdersMongo s).length ≤ 50) := by
  refine ⟨?_, ?_, memIngest_length_le, ?_⟩
  · rw [fold_upsert_fresh ts [] (by simpa using hids), List.nil_append]
    unfold listOrdersMongo
    rw [sortDesc_of_increasing (ts.map mkStored)
      (List.pairwise_map.mpr hmono)]
    rw [reverse_take_of_sixty (ts.map mkStored) (by simp [hts])]
    rw [← List.map_drop]
  · rw [memFold ms [] (by simp), List.append_nil]
    exact reverse_take_of_sixty ms hms
  · intro s
    unfold listOrdersMongo
    rw [List.length_take]
    exact inf_le_left

/-- Witness for C8 at sixty concrete ingestions. -/
theorem C8_recency_cap_witness :
    ((ts60.map (fun t => t.shopifyId)).Nodup ∧
      ts60.Pairwise (fun a b => a.created_at < b.created_at) ∧
      ts60.length = 60 ∧ ms60.length = 60) ∧
    (listOrdersMongo (ts60.foldl (fun s t => upsertOrder t s) []) =
        ((ts60.drop 10).map mkStored).reverse ∧
      memListOrders (ms60.foldl (fun s o => memIngest o s) []) =
        (ms60.drop 10).reverse) :=
  ⟨⟨by decide, by decide, by decide, by decide⟩,
   (C8_recency_cap ts60 ms60 (by decide) (by decide) (by decide)
      (by decide)).1,
   (C8_recency_cap ts60 ms60 (by decide) (by decide) (by decide)
      (by decide)).2.1⟩

/-- Claim C9: the stored `total_item_count` equals the sum of the
payload's per-line `current_quantity` values. -/
theorem C9_total_item_count (now : Nat) (pb : String → Option ProductNode)
    (w : WebhookOrder) (sls : List WebhookShippingLine)
    (hl : w.shipping_lines = some sls) :
    ∃ t, transformOrder now pb w = some t ∧
      t.total_item_count =
        (w.line_items.map (fun i => i.current_quantity)).sum := by
  refine ⟨_, transform_some now pb w sls hl, ?_⟩
  show totalItemCount w = (w.line_items.map (fun i => i.current_quantity)).sum
  unfold totalItemCount
  simpa using foldl_add_quantity w.line_items 0

/-- Witness for C9 at the example payload (one line of quantity 2). -/
theorem C9_total_item_count_witness :
    wPayload.shipping_lines = some [slPickup] ∧
    (∃ t, transformOrder 0 (buildProductsById []) wPayload = some t ∧
      t.total_item_count =
        (wPayload.line_items.map (fun i => i.current_quantity)).sum) :=
  ⟨rfl, C9_total_item_count 0 (buildProductsById []) wPayload [slPickup] rfl⟩

/-- Claim C10: the stored shipping method depends only on the first
shipping-line title — two payloads whose first titles agree produce the
same method regardless of later lines, other payload fields, enrichment
or ingestion time — and an empty shipping-lines sequence yields
`home_delivery`. -/
theorem C10_first_title_determines (now1 now2 : Nat)
    (pb1 pb2 : String → Option ProductNode) (w1 w2 : WebhookOrder)
    (sls1 sls2 : List WebhookShippingLine) (t1 t2 : TransformedOrder)
    (h1 : w1.shipping_lines = some sls1) (h2 : w2.shipping_lines = some sls2)
    (ht1 : transformOrder now1 pb1 w1 = some t1)
    (ht2 : transformOrder now2 pb2 w2 = some t2)
    (heq : firstShippingTitle sls1 = firstShippingTitle sls2) :
    t1.shipping_method = t2.shipping_method ∧
    (sls1 = [] → t1.shipping_method = ShippingMethod.home_delivery) := by
  have e1 : t1.shipping_method = defaultMethod sls1 := by
    have h := (transform_some now1 pb1 w1 sls1 h1).symm.trans ht1
    rw [← Option.some.inj h]
  have e2 : t2.shipping_method = defaultMethod sls2 := by
    have h := (transform_some now2 pb2 w2 sls2 h2).symm.trans ht2
    rw [← Option.some.inj h]
  constructor
  · rw [e1, e2]
    simp only [defaultMethod, effectiveShippingTitle]
    simp only [heq]
  · intro h0
    subst h0
    rw [e1]
    rfl

/-- Witness for C10: two payloads sharing the pickup first line, the
second carrying an extra trailing line, a different id and a different
ingestion time, produce the same shipping method. -/
theorem C10_first_title_determines_witness :
    (wPayload.shipping_lines = some [slPickup] ∧
      wPayload2.shipping_lines = some [slPickup, slHome] ∧
      firstShippingTitle [slPickup] = firstShippingTitle [slPickup, slHome]) ∧
    (∃ t1 t2, transformOrder 0 (buildProductsById []) wPayload = some t1 ∧
      transformOrder 5 (buildProductsById []) wPayload2 = some t2 ∧
      t1.shipping_method = t2.shipping_method) :=
  ⟨⟨rfl, rfl, rfl⟩,
   ⟨_, _, transform_some 0 (buildProductsById []) wPayload [slPickup] rfl,
     transform_some 5 (buildProductsById []) wPayload2 [slPickup, slHome] rfl,
     (C10_first_title_determines 0 5 (buildProductsById [])
       (buildProductsById []) wPayload wPayload2 [slPickup]
       [slPickup, slHome] _ _ rfl rfl
       (transform_some 0 (buildProductsById []) wPayload [slPickup] rfl)
       (transform_some 5 (buildProductsById []) wPayload2
         [slPickup, slHome] rfl) rfl).1⟩⟩

end ShopifyOrders
